import Mathlib

/-!
Shallow embedding of `src/bnetd/smtp.cpp` (PvPGN SMTP dispatch engine) and
proofs about its behaviour.

Modelling conventions:
  * C strings that may be NULL are `Option String`; a non-null C string is a
    Lean `String`.
  * The fixed 512-byte `char smtp_server_url[512]` buffer filled by
    `std::snprintf` is a `List Char` truncated to 511 characters (snprintf
    keeps one byte for the terminator).
  * The mutable file-scope globals (`is_curl_initialized`, the configuration
    strings, the two pool slots, the worker thread, libcurl's global context)
    form one explicit state record `SmtpState`.
  * External libcurl calls that can fail (`curl_easy_init`,
    `curl_multi_init`, `curl_global_init`, `curl_slist_append`) are driven by
    boolean oracles packaged in environment records.
  * Heap allocations made on behalf of one message (the easy handle, the
    recipient `curl_slist`, the `xmalloc`-ed `read_callback_message`) are
    tracked in an explicit `Heap` of live allocation ids.
  * The `Date:` value produced by `std::localtime` is an opaque `String`
    input.
-/

/-- The file-scope mutable globals of `smtp.cpp` gathered into one record.
`slot0`/`slot1` record whether each of the two `CURLM*` pool handles is
non-null, `thread_running` whether `smtp_thread` has been started, and
`global_ctx` whether libcurl's global context is initialized. -/
structure SmtpState where
  is_curl_initialized : Bool
  smtp_ca_cert_store : String
  smtp_server_url : List Char
  smtp_port : Nat
  smtp_username : String
  smtp_password : String
  slot0 : Bool
  slot1 : Bool
  thread_running : Bool
  global_ctx : Bool
deriving DecidableEq, Repr

/-- `smtp_config` from `smtp.cpp` lines 139-179: validates the five
parameters in source order (CA store null, server URL null, port above
65535, username null, password null), returning `false` and leaving the
state untouched on the first failed check; on success stores the CA path,
writes `snprintf(smtp_server_url, 512, "smtps://%s", url)` (truncating to
511 characters), and stores port, username and password. -/
def smtp_config (st : SmtpState) (ca url : Option String) (port : Nat)
    (user pass : Option String) : Bool × SmtpState :=
  match ca with
  | none => (false, st)
  | some ca_str =>
    match url with
    | none => (false, st)
    | some url_str =>
      if 65535 < port then (false, st)
      else
        match user with
        | none => (false, st)
        | some user_str =>
          match pass with
          | none => (false, st)
          | some pass_str =>
            (true, { st with
              smtp_ca_cert_store := ca_str,
              smtp_server_url := ("smtps://" ++ url_str).data.take 511,
              smtp_port := port,
              smtp_username := user_str,
              smtp_password := pass_str })

/-- `smtp_reconfig` from `smtp.cpp` lines 226-229: a direct call to
`smtp_config`, with no check of `is_curl_initialized`. -/
def smtp_reconfig (st : SmtpState) (ca url : Option String) (port : Nat)
    (user pass : Option String) : Bool × SmtpState :=
  smtp_config st ca url port user pass

/-- The header block prepended by `smtp_send_email` (line 294 of
`smtp.cpp`), with the `Date:` value passed in as an opaque string. The
format string is
`"MIME-Version: 1.0\r\nContent-Type: text/plain; charset=\"UTF-8\"\r\nDate: \x7b:%a, %d %b %Y %T %z\x7d\r\nFrom: \x7b\x7d <\x7b\x7d>\r\nTo: <\x7b\x7d>\r\nSubject: \x7b\x7d\r\n\r\n"`
applied to the local time, `from_name`, `from_address`, `to_address` and
`subject`, in that order. -/
def compose_headers (date from_name from_address to_address subject : String) : String :=
  "MIME-Version: 1.0\r\nContent-Type: text/plain; charset=\"UTF-8\"\r\nDate: "
    ++ date ++ "\r\nFrom: " ++ from_name ++ " <" ++ from_address ++ ">\r\nTo: <"
    ++ to_address ++ ">\r\nSubject: " ++ subject ++ "\r\n\r\n"

/-- `message.insert(0, fmt::format(...))` in `smtp_send_email`: the composed
message is the header block followed by the original body. -/
def compose_message (date from_name from_address to_address subject body : String) : String :=
  compose_headers date from_name from_address to_address subject ++ body

/-- The header block as claim C3 words it: identical to the source's format
except that the `From:` display name is wrapped in double quotes. Used only
to compare the claim's wording with the source's actual format. -/
def compose_headers_claimed (date from_name from_address to_address subject : String) : String :=
  "MIME-Version: 1.0\r\nContent-Type: text/plain; charset=\"UTF-8\"\r\nDate: "
    ++ date ++ "\r\nFrom: \"" ++ from_name ++ "\" <" ++ from_address ++ ">\r\nTo: <"
    ++ to_address ++ ">\r\nSubject: " ++ subject ++ "\r\n\r\n"

theorem string_data_append (a b : String) : (a ++ b).data = a.data ++ b.data := by
  cases a; cases b; rfl

theorem string_eq_of_data_eq (a b : String) (h : a.data = b.data) : a = b := by
  cases a; cases b; exact congrArg String.mk h

/-- Claim C4: `smtp_config` (the validation shared by `smtp_init` and
`smtp_reconfig`) returns failure and leaves the stored configuration (and
all other state) unchanged when any string argument is null or the port
exceeds 65535; with all strings present and port at most 65535 it succeeds
and stores the new configuration. -/
theorem smtp_config_validation (st : SmtpState) (ca url user pass : Option String)
    (port : Nat) :
    ((ca = none ∨ url = none ∨ user = none ∨ pass = none ∨ 65535 < port) →
      smtp_config st ca url port user pass = (false, st)) ∧
    (∀ a u un pw, ca = some a → url = some u → user = some un → pass = some pw →
      port ≤ 65535 →
      smtp_config st ca url port user pass =
        (true, { st with
          smtp_ca_cert_store := a,
          smtp_server_url := ("smtps://" ++ u).data.take 511,
          smtp_port := port,
          smtp_username := un,
          smtp_password := pw })) := by
  constructor
  · intro h
    rcases ca with _ | a
    · simp [smtp_config]
    rcases url with _ | u
    · simp [smtp_config]
    by_cases hp : 65535 < port
    · simp [smtp_config, hp]
    rcases user with _ | un
    · simp [smtp_config, hp]
    rcases pass with _ | pw
    · simp [smtp_config, hp]
    · rcases h with h | h | h | h | h <;> simp_all
  · intro a u un pw ha hu hun hpw hp
    subst ha; subst hu; subst hun; subst hpw
    simp [smtp_config, Nat.not_lt.mpr hp]

/-- Witness for `smtp_config_validation` at a concrete state and concrete
arguments (null password on the failure side; all fields present with port
587 on the success side). -/
theorem smtp_config_validation_witness :
    ((some "ca" = none ∨ some "mail.test" = (none : Option String) ∨
        some "user" = none ∨ (none : Option String) = none ∨ 65535 < 587) →
      smtp_config ⟨false, "", [], 0, "", "", false, false, false, false⟩
        (some "ca") (some "mail.test") 587 (some "user") none =
        (false, ⟨false, "", [], 0, "", "", false, false, false, false⟩)) ∧
    (∀ a u un pw, some "ca" = some a → some "mail.test" = some u →
      some "user" = some un → (none : Option String) = some pw → 587 ≤ 65535 →
      smtp_config ⟨false, "", [], 0, "", "", false, false, false, false⟩
        (some "ca") (some "mail.test") 587 (some "user") none =
        (true, { (⟨false, "", [], 0, "", "", false, false, false, false⟩ : SmtpState) with
          smtp_ca_cert_store := a,
          smtp_server_url := ("smtps://" ++ u).data.take 511,
          smtp_port := 587,
          smtp_username := un,
          smtp_password := pw })) :=
  smtp_config_validation ⟨false, "", [], 0, "", "", false, false, false, false⟩
    (some "ca") (some "mail.test") (some "user") none 587

/-- Claim C9: a successful configuration stores exactly
`"smtps://" ++ host` truncated to 511 characters in the fixed 512-byte
buffer; a host longer than 503 characters is silently truncated (the stored
URL differs from the untruncated one) while the call still succeeds. -/
theorem smtp_config_url_truncation (st : SmtpState) (a u un pw : String)
    (port : Nat) (h : port ≤ 65535) :
    (smtp_config st (some a) (some u) port (some un) (some pw)).1 = true ∧
    (smtp_config st (some a) (some u) port (some un) (some pw)).2.smtp_server_url
      = ("smtps://" ++ u).data.take 511 ∧
    (smtp_config st (some a) (some u) port (some un) (some pw)).2.smtp_server_url.length
      ≤ 511 ∧
    (503 < u.length →
      (smtp_config st (some a) (some u) port (some un) (some pw)).2.smtp_server_url
        ≠ ("smtps://" ++ u).data) := by
  have hrun : smtp_config st (some a) (some u) port (some un) (some pw) =
      (true, { st with
        smtp_ca_cert_store := a,
        smtp_server_url := ("smtps://" ++ u).data.take 511,
        smtp_port := port,
        smtp_username := un,
        smtp_password := pw }) := by
    simp [smtp_config, Nat.not_lt.mpr h]
  have hlen : (("smtps://" ++ u).data).length = 8 + u.length := by
    have h8 : ("smtps://".data).length = 8 := rfl
    rw [string_data_append, List.length_append, h8]
    rfl
  refine ⟨by simp [hrun], by simp [hrun], ?_, ?_⟩
  · simp only [hrun]
    simp [List.length_take]
  · intro hu
    simp only [hrun]
    intro heq
    have h1 : (("smtps://" ++ u).data.take 511).length = 511 := by
      simp [List.length_take, hlen]
      omega
    have h2 : (("smtps://" ++ u).data).length = 8 + u.length := hlen
    rw [heq] at h1
    omega

/-- Witness for `smtp_config_url_truncation`: port 465 and a 504-character
host, which overflows the 512-byte buffer. -/
theorem smtp_config_url_truncation_witness :
    465 ≤ 65535 ∧
    ((smtp_config ⟨false, "", [], 0, "", "", false, false, false, false⟩
        (some "ca") (some (String.mk (List.replicate 504 'a'))) 465
        (some "u") (some "p")).1 = true ∧
      (smtp_config ⟨false, "", [], 0, "", "", false, false, false, false⟩
        (some "ca") (some (String.mk (List.replicate 504 'a'))) 465
        (some "u") (some "p")).2.smtp_server_url
        = ("smtps://" ++ String.mk (List.replicate 504 'a')).data.take 511 ∧
      (smtp_config ⟨false, "", [], 0, "", "", false, false, false, false⟩
        (some "ca") (some (String.mk (List.replicate 504 'a'))) 465
        (some "u") (some "p")).2.smtp_server_url.length ≤ 511 ∧
      (503 < (String.mk (List.replicate 504 'a')).length →
        (smtp_config ⟨false, "", [], 0, "", "", false, false, false, false⟩
          (some "ca") (some (String.mk (List.replicate 504 'a'))) 465
          (some "u") (some "p")).2.smtp_server_url
          ≠ ("smtps://" ++ String.mk (List.replicate 504 'a')).data)) :=
  ⟨by decide,
    smtp_config_url_truncation ⟨false, "", [], 0, "", "", false, false, false, false⟩
      "ca" (String.mk (List.replicate 504 'a')) "u" "p" 465 (by decide)⟩

/-- Claim C10: `smtp_reconfig` performs no check of the initialization
flag: it is literally `smtp_config`, and flipping `is_curl_initialized` in
the pre-state changes neither the success result nor any stored
configuration field (only the untouched flag itself differs). -/
theorem smtp_reconfig_no_init_check (st : SmtpState) (b : Bool)
    (ca url user pass : Option String) (port : Nat) :
    smtp_reconfig st ca url port user pass = smtp_config st ca url port user pass ∧
    (smtp_reconfig { st with is_curl_initialized := b } ca url port user pass).1
      = (smtp_reconfig st ca url port user pass).1 ∧
    (smtp_reconfig { st with is_curl_initialized := b } ca url port user pass).2
      = { (smtp_reconfig st ca url port user pass).2 with is_curl_initialized := b } := by
  refine ⟨rfl, ?_, ?_⟩ <;>
  · rcases ca with _ | a <;> rcases url with _ | u <;>
      rcases user with _ | un <;> rcases pass with _ | pw <;>
      by_cases hp : 65535 < port <;>
      simp [smtp_reconfig, smtp_config, hp]

/-- Oracles for the fallible libcurl calls made by `smtp_init`: whether each
of the two `curl_multi_init()` calls returns a non-null handle and whether
`curl_global_init(CURL_GLOBAL_NOTHING)` returns 0. -/
structure CurlEnv where
  multi0_ok : Bool
  multi1_ok : Bool
  global_ok : Bool
deriving DecidableEq, Repr

/-- `smtp_init` from `smtp.cpp` lines 188-224: fails immediately (leaving
the state untouched) when `is_curl_initialized` is already true; then runs
`smtp_config`; then allocates the two pool multi handles in order, failing
on the first null result and leaving any earlier slot allocated; then
initializes libcurl's global context; on success starts the consumer thread
and sets `is_curl_initialized`. -/
def smtp_init (env : CurlEnv) (st : SmtpState) (ca url : Option String)
    (port : Nat) (user pass : Option String) : Bool × SmtpState :=
  if st.is_curl_initialized then (false, st)
  else
    let c := smtp_config st ca url port user pass
    if c.1 = false then (false, c.2)
    else
      let st1 := { c.2 with slot0 := env.multi0_ok }
      if env.multi0_ok = false then (false, st1)
      else
        let st2 := { st1 with slot1 := env.multi1_ok }
        if env.multi1_ok = false then (false, st2)
        else if env.global_ok = false then (false, st2)
        else (true, { st2 with
          global_ctx := true,
          thread_running := true,
          is_curl_initialized := true })

/-- The externally visible steps taken by `smtp_cleanup`, in order. -/
inductive CleanupAction where
  | clear_flag
  | join_thread
  | multi_cleanup (slot : Nat)
  | global_cleanup
deriving DecidableEq, Repr

/-- `smtp_cleanup` from `smtp.cpp` lines 231-250: does nothing when
`is_curl_initialized` is false; otherwise clears the flag, joins
`smtp_thread`, calls `curl_multi_cleanup` on both pool slots in order, and
finally `curl_global_cleanup`. The returned list records the actions in
program order. -/
def smtp_cleanup (st : SmtpState) : SmtpState × List CleanupAction :=
  if st.is_curl_initialized then
    ({ st with
        is_curl_initialized := false,
        thread_running := false,
        slot0 := false,
        slot1 := false,
        global_ctx := false },
      [CleanupAction.clear_flag, CleanupAction.join_thread,
        CleanupAction.multi_cleanup 0, CleanupAction.multi_cleanup 1,
        CleanupAction.global_cleanup])
  else (st, [])

/-- Claim C5: calling `smtp_init` when `is_curl_initialized` is already
true returns failure and changes no state at all - the configuration, both
pool slots, the thread and the flag are exactly those of the pre-state. -/
theorem smtp_init_already_initialized (env : CurlEnv) (st : SmtpState)
    (ca url user pass : Option String) (port : Nat)
    (h : st.is_curl_initialized = true) :
    smtp_init env st ca url port user pass = (false, st) := by
  simp [smtp_init, h]

/-- Witness for `smtp_init_already_initialized` at a concrete
already-initialized state. -/
theorem smtp_init_already_initialized_witness :
    (⟨true, "ca", [], 587, "u", "p", true, true, true, true⟩ : SmtpState).is_curl_initialized
      = true ∧
    smtp_init ⟨true, true, true⟩
        ⟨true, "ca", [], 587, "u", "p", true, true, true, true⟩
        (some "ca2") (some "mail.test") 25 (some "u2") (some "p2") =
      (false, ⟨true, "ca", [], 587, "u", "p", true, true, true, true⟩) :=
  ⟨rfl,
    smtp_init_already_initialized ⟨true, true, true⟩
      ⟨true, "ca", [], 587, "u", "p", true, true, true, true⟩
      (some "ca2") (some "mail.test") (some "u2") (some "p2") 25 rfl⟩

/-- Claim C8: `smtp_cleanup` is a no-op (state unchanged, no action taken)
when `is_curl_initialized` is false - so a second shutdown after a first
one, or a shutdown without successful initialization, does nothing; when
the flag is true it clears the flag first, then joins the poller thread,
then frees both pool multi handles, then frees libcurl's global context, in
exactly that order. -/
theorem smtp_cleanup_spec (st : SmtpState) :
    (st.is_curl_initialized = false → smtp_cleanup st = (st, [])) ∧
    (st.is_curl_initialized = true →
      smtp_cleanup st =
        ({ st with
            is_curl_initialized := false,
            thread_running := false,
            slot0 := false,
            slot1 := false,
            global_ctx := false },
          [CleanupAction.clear_flag, CleanupAction.join_thread,
            CleanupAction.multi_cleanup 0, CleanupAction.multi_cleanup 1,
            CleanupAction.global_cleanup])) := by
  constructor
  · intro h
    simp [smtp_cleanup, h]
  · intro h
    simp [smtp_cleanup, h]

/-- Witness for `smtp_cleanup_spec`: the no-op case at a never-initialized
state and the full teardown at an initialized state. -/
theorem smtp_cleanup_spec_witness :
    smtp_cleanup ⟨false, "", [], 0, "", "", false, false, false, false⟩ =
      (⟨false, "", [], 0, "", "", false, false, false, false⟩, []) ∧
    smtp_cleanup ⟨true, "ca", [], 587, "u", "p", true, true, true, true⟩ =
      ({ (⟨true, "ca", [], 587, "u", "p", true, true, true, true⟩ : SmtpState) with
          is_curl_initialized := false,
          thread_running := false,
          slot0 := false,
          slot1 := false,
          global_ctx := false },
        [CleanupAction.clear_flag, CleanupAction.join_thread,
          CleanupAction.multi_cleanup 0, CleanupAction.multi_cleanup 1,
          CleanupAction.global_cleanup]) :=
  ⟨(smtp_cleanup_spec ⟨false, "", [], 0, "", "", false, false, false, false⟩).1 rfl,
    (smtp_cleanup_spec ⟨true, "ca", [], 587, "u", "p", true, true, true, true⟩).2 rfl⟩

/-- The `read_callback_message` struct of `smtp.cpp` (lines 54-58): the
composed message text and the count of bytes still to be served. -/
structure RcbState where
  message : List Char
  bytes_remaining : Nat
deriving DecidableEq, Repr

/-- `read_callback` from `smtp.cpp` lines 119-133, for one invocation with
a destination buffer of `buffer_size = size * nitems` bytes. It computes
`copy_size = bytes_remaining <= buffer_size ? bytes_remaining : buffer_size`
(that is, `min bytes_remaining buffer_size`) and, when positive, copies
`copy_size` bytes starting at `message.c_str()` - that is, always from the
START of the message (the C string is the characters followed by the NUL
terminator), with no offset for bytes already served - then subtracts
`copy_size` from `bytes_remaining`. The returned list is the chunk written
to the buffer; its length is the callback's return value. -/
def read_callback (rcb : RcbState) (buffer_size : Nat) : List Char × RcbState :=
  if 0 < min rcb.bytes_remaining buffer_size then
    ((rcb.message ++ [Char.ofNat 0]).take (min rcb.bytes_remaining buffer_size),
      { rcb with bytes_remaining := rcb.bytes_remaining - min rcb.bytes_remaining buffer_size })
  else ([], rcb)

/-- Repeated invocations of `read_callback` with the given sequence of
buffer capacities, collecting the chunk produced by each call. -/
def run_read_calls : RcbState → List Nat → List (List Char)
  | _, [] => []
  | rcb, cap :: caps =>
    (read_callback rcb cap).1 :: run_read_calls (read_callback rcb cap).2 caps

/-- Claim C7: a single `read_callback` invocation on a state reachable from
initialization (`bytes_remaining ≤ length + 1`) copies exactly
`min(bytes_remaining, size * nitems)` bytes, decreases `bytes_remaining` by
exactly that amount (so it is non-increasing and never wraps below zero),
returns the number of bytes copied, and leaves the stored message text
unchanged. -/
theorem read_callback_single_call (rcb : RcbState) (size nitems : Nat)
    (h : rcb.bytes_remaining ≤ rcb.message.length + 1) :
    ((read_callback rcb (size * nitems)).1).length
      = min rcb.bytes_remaining (size * nitems) ∧
    ((read_callback rcb (size * nitems)).2).bytes_remaining
      = rcb.bytes_remaining - min rcb.bytes_remaining (size * nitems) ∧
    ((read_callback rcb (size * nitems)).2).bytes_remaining ≤ rcb.bytes_remaining ∧
    ((read_callback rcb (size * nitems)).2).message = rcb.message := by
  have hlen : (rcb.message ++ [Char.ofNat 0]).length = rcb.message.length + 1 := by
    simp
  have hmin : min rcb.bytes_remaining (size * nitems) ≤ rcb.message.length + 1 :=
    le_trans (Nat.min_le_left _ _) h
  unfold read_callback
  by_cases hz : 0 < min rcb.bytes_remaining (size * nitems)
  · rw [if_pos hz]
    refine ⟨?_, rfl, Nat.sub_le _ _, rfl⟩
    rw [List.length_take, hlen]
    omega
  · rw [if_neg hz]
    have hz0 : min rcb.bytes_remaining (size * nitems) = 0 := by omega
    refine ⟨by simp [hz0], ?_, Nat.le_refl _, rfl⟩
    show rcb.bytes_remaining = rcb.bytes_remaining - min rcb.bytes_remaining (size * nitems)
    omega

/-- Witness for `read_callback_single_call`: a two-character message with
three bytes remaining, read with `size = 2`, `nitems = 1`. -/
theorem read_callback_single_call_witness :
    3 ≤ (['h', 'i'] : List Char).length + 1 ∧
    (((read_callback ⟨['h', 'i'], 3⟩ (2 * 1)).1).length = min 3 (2 * 1) ∧
      ((read_callback ⟨['h', 'i'], 3⟩ (2 * 1)).2).bytes_remaining = 3 - min 3 (2 * 1) ∧
      ((read_callback ⟨['h', 'i'], 3⟩ (2 * 1)).2).bytes_remaining ≤ 3 ∧
      ((read_callback ⟨['h', 'i'], 3⟩ (2 * 1)).2).message = ['h', 'i']) :=
  ⟨by decide, read_callback_single_call ⟨['h', 'i'], 3⟩ 2 1 (by decide)⟩

set_option maxRecDepth 40000 in
/-- Claim C1 evaluated on the code at a concrete failing input: the message
composed from small concrete arguments has 162 characters, so the stream is
created with 163 bytes remaining. Driving `read_callback` with buffer
capacities 100, 100, 100 returns chunks of 100, 63 and 0 bytes - the
callback does return 0 after finitely many calls, exactly when
`bytes_remaining` reaches 0 - but because every call copies from the start
of `message.c_str()` (no offset is kept), the concatenation of the non-zero
chunks is neither the composed message nor the composed message plus its
NUL terminator: the second chunk repeats the first 63 characters instead of
continuing at position 100. -/
theorem read_callback_chunks_not_message :
    (compose_message "Mon, 01 Jan 2024 00:00:00 +0000" "Name" "from@x.com"
        "to@x.com" "Hi" "Hello").data.length = 162 ∧
    (run_read_calls
        ⟨(compose_message "Mon, 01 Jan 2024 00:00:00 +0000" "Name" "from@x.com"
            "to@x.com" "Hi" "Hello").data, 162 + 1⟩
        [100, 100, 100]).map List.length = [100, 63, 0] ∧
    ((run_read_calls
        ⟨(compose_message "Mon, 01 Jan 2024 00:00:00 +0000" "Name" "from@x.com"
            "to@x.com" "Hi" "Hello").data, 162 + 1⟩
        [100, 100, 100]).filter (fun c => c.length != 0)).flatten
      ≠ (compose_message "Mon, 01 Jan 2024 00:00:00 +0000" "Name" "from@x.com"
          "to@x.com" "Hi" "Hello").data ∧
    ((run_read_calls
        ⟨(compose_message "Mon, 01 Jan 2024 00:00:00 +0000" "Name" "from@x.com"
            "to@x.com" "Hi" "Hello").data, 162 + 1⟩
        [100, 100, 100]).filter (fun c => c.length != 0)).flatten
      ≠ (compose_message "Mon, 01 Jan 2024 00:00:00 +0000" "Name" "from@x.com"
          "to@x.com" "Hi" "Hello").data ++ [Char.ofNat 0] ∧
    (run_read_calls
        ⟨(compose_message "Mon, 01 Jan 2024 00:00:00 +0000" "Name" "from@x.com"
            "to@x.com" "Hi" "Hello").data, 162 + 1⟩
        [100, 100, 100]).getLast? = some [] := by
  decide

/-- The per-message data libcurl keeps for one easy handle, as used by
`smtp_send_email` / `smtp_consumer`: the `CURLOPT_PRIVATE` pointer (set to
the recipient `curl_slist`) and the `CURLOPT_READDATA` pointer (set to the
`xmalloc`-ed `read_callback_message`), each an allocation id or null. -/
structure EasyInfo where
  private_data : Option Nat
  readdata : Option Nat
deriving DecidableEq, Repr

/-- Live heap allocations made on behalf of submitted messages: easy
handles (with their attached pointers), recipient `curl_slist`s, and
`read_callback_message` streaming states. -/
structure Heap where
  easys : List (Nat × EasyInfo)
  slists : List Nat
  rcbs : List (Nat × RcbState)
deriving DecidableEq, Repr

def Heap.empty : Heap := ⟨[], [], []⟩

/-- Oracles and fresh allocation ids for one `smtp_send_email` call:
whether `curl_easy_init` returns a handle, whether `curl_slist_append`
succeeds, the `Date:` string produced by `std::localtime`, and the ids of
the three allocations the call makes. -/
structure SendEnv where
  easy_init_ok : Bool
  slist_append_ok : Bool
  date : String
  easy_id : Nat
  slist_id : Nat
  rcb_id : Nat
deriving DecidableEq, Repr

/-- `smtp_send_email` from `smtp.cpp` lines 252-332. If
`is_curl_initialized` is false it logs and returns with nothing allocated
and no transfer created. Otherwise it allocates an easy handle (returning
on `curl_easy_init` failure), builds the single-recipient list (returning
on failure, with the easy handle left allocated as in the source), prepends
the MIME headers to the body, `xmalloc`s a `read_callback_message` holding
the composed message with `bytes_remaining = length + 1`, stores the
recipient list in `CURLOPT_PRIVATE` and the streaming state in
`CURLOPT_READDATA`, and hands the easy handle to a pool slot. The result is
the new heap and the id of the created transfer, if any. -/
def smtp_send_email (env : SendEnv) (st : SmtpState) (h : Heap)
    (to_address from_address from_name subject : String) (message : String) :
    Heap × Option Nat :=
  if st.is_curl_initialized = false then (h, none)
  else if env.easy_init_ok = false then (h, none)
  else
    let h1 : Heap := { h with easys := (env.easy_id, ⟨none, none⟩) :: h.easys }
    if env.slist_append_ok = false then (h1, none)
    else
      let composed :=
        compose_message env.date from_name from_address to_address subject message
      let h2 : Heap := { h with
        easys := (env.easy_id, ⟨some env.slist_id, some env.rcb_id⟩) :: h.easys,
        slists := env.slist_id :: h.slists,
        rcbs := (env.rcb_id, ⟨composed.data, composed.data.length + 1⟩) :: h.rcbs }
      (h2, some env.easy_id)

/-- The completion-reaping step of `smtp_consumer` (lines 93-109 of
`smtp.cpp`) for one easy handle reported `CURLMSG_DONE`: the handle is
removed from the multi handle, the recipient list recovered from
`CURLOPT_PRIVATE` is freed when non-null, and the easy handle itself is
freed. The `CURLOPT_READDATA` allocation is never touched. -/
def reap_done (h : Heap) (easy_id : Nat) : Heap :=
  match h.easys.find? (fun e => e.1 == easy_id) with
  | none => h
  | some e =>
    let h1 : Heap := { h with easys := h.easys.filter (fun x => x.1 != easy_id) }
    match e.2.private_data with
    | none => h1
    | some sid => { h1 with slists := h1.slists.filter (fun x => x != sid) }

/-- Claim C6: `smtp_send_email` called while `is_curl_initialized` is false
returns immediately: the heap of live allocations is unchanged (no
transport allocation, no streaming state) and no transfer is created. -/
theorem smtp_send_email_not_initialized (env : SendEnv) (st : SmtpState)
    (h : Heap) (to_address from_address from_name subject message : String)
    (hinit : st.is_curl_initialized = false) :
    smtp_send_email env st h to_address from_address from_name subject message
      = (h, none) := by
  simp [smtp_send_email, hinit]

/-- Witness for `smtp_send_email_not_initialized` at a concrete
uninitialized state and heap. -/
theorem smtp_send_email_not_initialized_witness :
    (⟨false, "", [], 0, "", "", false, false, false, false⟩ : SmtpState).is_curl_initialized
      = false ∧
    smtp_send_email ⟨true, true, "Mon, 01 Jan 2024 00:00:00 +0000", 1, 2, 3⟩
        ⟨false, "", [], 0, "", "", false, false, false, false⟩ Heap.empty
        "to@x.com" "from@x.com" "Name" "Hi" "Hello" = (Heap.empty, none) :=
  ⟨rfl,
    smtp_send_email_not_initialized ⟨true, true, "Mon, 01 Jan 2024 00:00:00 +0000", 1, 2, 3⟩
      ⟨false, "", [], 0, "", "", false, false, false, false⟩ Heap.empty
      "to@x.com" "from@x.com" "Name" "Hi" "Hello" rfl⟩

set_option maxRecDepth 40000 in
/-- Claim C2 evaluated on the code at a concrete input: from an initialized
state and an empty heap, one successful `smtp_send_email` creates a
transfer (easy handle 1) together with its recipient list (2) and its
`xmalloc`-ed streaming state (3); reaping that transfer as done frees the
easy handle and the recipient list, but the streaming state registered in
`CURLOPT_READDATA` is never freed - it survives the reap (`reap_done`
leaves `rcbs` untouched), and `smtp_cleanup` (whose type acts on
`SmtpState` only, matching the source, which frees only the multi handles
and the global context) cannot free it either: the allocation is leaked. -/
theorem smtp_streaming_state_leak :
    (smtp_send_email ⟨true, true, "Mon, 01 Jan 2024 00:00:00 +0000", 1, 2, 3⟩
        ⟨true, "ca", [], 587, "u", "p", true, true, true, true⟩ Heap.empty
        "to@x.com" "from@x.com" "Name" "Hi" "Hello").2 = some 1 ∧
    (reap_done
        (smtp_send_email ⟨true, true, "Mon, 01 Jan 2024 00:00:00 +0000", 1, 2, 3⟩
          ⟨true, "ca", [], 587, "u", "p", true, true, true, true⟩ Heap.empty
          "to@x.com" "from@x.com" "Name" "Hi" "Hello").1 1).easys = [] ∧
    (reap_done
        (smtp_send_email ⟨true, true, "Mon, 01 Jan 2024 00:00:00 +0000", 1, 2, 3⟩
          ⟨true, "ca", [], 587, "u", "p", true, true, true, true⟩ Heap.empty
          "to@x.com" "from@x.com" "Name" "Hi" "Hello").1 1).slists = [] ∧
    (reap_done
        (smtp_send_email ⟨true, true, "Mon, 01 Jan 2024 00:00:00 +0000", 1, 2, 3⟩
          ⟨true, "ca", [], 587, "u", "p", true, true, true, true⟩ Heap.empty
          "to@x.com" "from@x.com" "Name" "Hi" "Hello").1 1).rcbs
      = (smtp_send_email ⟨true, true, "Mon, 01 Jan 2024 00:00:00 +0000", 1, 2, 3⟩
          ⟨true, "ca", [], 587, "u", "p", true, true, true, true⟩ Heap.empty
          "to@x.com" "from@x.com" "Name" "Hi" "Hello").1.rcbs ∧
    ((reap_done
        (smtp_send_email ⟨true, true, "Mon, 01 Jan 2024 00:00:00 +0000", 1, 2, 3⟩
          ⟨true, "ca", [], 587, "u", "p", true, true, true, true⟩ Heap.empty
          "to@x.com" "from@x.com" "Name" "Hi" "Hello").1 1).rcbs.map Prod.fst) = [3] := by
  decide

set_option maxRecDepth 40000 in
/-- Counterexample to claim C3 at concrete arguments: the header block the
source actually prepends differs from the block the claim describes,
because the source's `From:` header does not wrap the display name in
double quotes (`From: Alice <alice@x.com>`, not
`From: "Alice" <alice@x.com>`). -/
theorem compose_headers_no_quotes :
    compose_headers "Mon, 01 Jan 2024 00:00:00 +0000" "Alice" "alice@x.com"
        "bob@y.com" "Hi"
      ≠ compose_headers_claimed "Mon, 01 Jan 2024 00:00:00 +0000" "Alice"
        "alice@x.com" "bob@y.com" "Hi" := by
  decide

/-- Claim C3 as amended: for every send that reaches composition, the text
prepended to the body consists exactly of `MIME-Version: 1.0`,
`Content-Type: text/plain; charset="UTF-8"`, a `Date` header with the
local-time string, `From: <fromName> <from>` with the display name NOT in
double quotes, `To: <to>` with the recipient address in angle brackets,
and `Subject: <subject>`, each line terminated by CRLF, followed by a blank
line separating headers from body. -/
theorem compose_message_headers (d n f t s b : String) :
    compose_message d n f t s b =
      "MIME-Version: 1.0\r\n" ++ "Content-Type: text/plain; charset=\"UTF-8\"\r\n"
        ++ ("Date: " ++ d ++ "\r\n") ++ ("From: " ++ n ++ " <" ++ f ++ ">\r\n")
        ++ ("To: <" ++ t ++ ">\r\n") ++ ("Subject: " ++ s ++ "\r\n") ++ "\r\n" ++ b := by
  apply string_eq_of_data_eq
  simp only [compose_message, compose_headers, string_data_append, List.append_assoc]
  simp only [List.cons_append, List.nil_append]
